import Mathlib

/-!
Verification of the FinOps agent session core
(docker_app/app.py and docker_app/app_streaming.py).

The Python sources are shallowly embedded below: pure helpers become Lean
functions, the Streamlit session-state mutations of one chat turn become
explicit state-passing functions, and Python floats used for money are
modelled as exact rationals.  Machine-level subtlety that matters is kept:
Python's `len(text) // 3.2` is float floor-division by the IEEE-754 double
nearest to 3.2, namely 3602879701896397 / 2^50, and for a nonnegative
integer L below 2^50 it computes exactly `(L * 2^50) / 3602879701896397`
in integer floor arithmetic.
-/

namespace FinOps

/-! ## Token/Cost Estimator (app.py lines 46-93) -/

/-- Python `L // 3.2` for a nonnegative integer `L`: float floor-division by
the double 3.2 = 3602879701896397 / 2^50 (2^50 = 1125899906842624).  `fmod`
is exact on doubles, so the result is the exact integer floor of
`L * 2^50 / 3602879701896397`. -/
def pyFloorDivByThreePointTwo (L : Nat) : Nat :=
  (L * 1125899906842624) / 3602879701896397

/-- app.py `estimate_tokens_from_text`: returns 0 for falsy (empty) text,
otherwise `max(1, len(text) // 3.2)`. -/
def estimate_tokens_from_text (s : String) : Nat :=
  if s = "" then 0 else max 1 (pyFloorDivByThreePointTwo s.length)

/-- Modelled from the spec (section 4.4), for comparison with the code:
`max(1, ceil(length_in_characters / 3.2))` for non-empty text, where
ceil(L / 3.2) = ceil(5L / 16) = (5L + 15) / 16 in integer arithmetic. -/
def spec_estimate_tokens (s : String) : Nat :=
  if s = "" then 0 else max 1 ((5 * s.length + 15) / 16)

/-- One item of a structured (list-valued) message content.  A Python dict
item is represented by its `json.dumps` serialization, any other item by its
`str` rendering; `estimate_tokens_from_text` only consumes that text. -/
inductive ContentItem
  | dict (dumped : String)
  | other (str : String)
deriving DecidableEq

/-- The `content` field of an agent message: either a plain string or a
structured list of items (tool calls etc.). -/
inductive MsgContent
  | plain (s : String)
  | blocks (items : List ContentItem)
deriving DecidableEq

/-- An agent message as consumed by `calculate_conversation_tokens`:
a dict with a `role` and a `content` field. -/
structure PyMessage where
  role : String
  content : MsgContent
deriving DecidableEq

/-- Token estimate of one structured content item (app.py lines 82-86). -/
def contentItemTokens : ContentItem → Nat
  | .dict dumped => estimate_tokens_from_text dumped
  | .other s => estimate_tokens_from_text s

/-- Token estimate of one message: role tokens plus content tokens
(app.py lines 74-88). -/
def messageTokens (m : PyMessage) : Nat :=
  estimate_tokens_from_text m.role +
    match m.content with
    | .plain s => estimate_tokens_from_text s
    | .blocks items => (items.map contentItemTokens).sum

/-- app.py `calculate_conversation_tokens`: system prompt tokens plus the
sum over all messages of role and content token estimates. -/
def calculate_conversation_tokens (agent_messages : List PyMessage)
    (system_prompt : String) : Nat :=
  estimate_tokens_from_text system_prompt +
    (agent_messages.map messageTokens).sum

/-! ## Usage Ledger and per-request cost (app.py lines 628-690, 738-746) -/

/-- The process-wide usage accumulator held in Streamlit session state:
`total_tokens`, `total_cost`, `total_requests`.  Dollar amounts are Python
floats in the source; they are modelled as exact rationals. -/
structure UsageLedger where
  total_tokens : Nat
  total_cost : ℚ
  total_requests : Nat
deriving DecidableEq

/-- The ledger as first created (`st.session_state.total_tokens = 0`
etc., app.py lines 643-646), and after a stats reset. -/
def ledger0 : UsageLedger := ⟨0, 0, 0⟩

/-- Exact usage metrics as reported by the model endpoint
(`inputTokens` / `outputTokens`). -/
structure Usage where
  inputTokens : Nat
  outputTokens : Nat
deriving DecidableEq

/-- Per-request cost (app.py lines 638-640): Claude 3.7 Sonnet pricing,
`(input_tokens / 1_000_000) * 3.00 + (output_tokens / 1_000_000) * 15.00`. -/
def turn_cost (input_tokens output_tokens : Nat) : ℚ :=
  (input_tokens : ℚ) / 1000000 * 3 + (output_tokens : ℚ) / 1000000 * 15

/-- The request-metrics expander (app.py lines 738-746): the request cost is
computed and shown only when some token count is positive. -/
def request_metrics_cost (input_tokens output_tokens : Nat) : Option ℚ :=
  if 0 < input_tokens ∨ 0 < output_tokens then
    some ((input_tokens : ℚ) / 1000000 * 3 + (output_tokens : ℚ) / 1000000 * 15)
  else none

/-- The data of one completed buffered chat turn at accounting time:
the probed usage metrics (`None` when the endpoint reported nothing), the
agent's message list, and the extracted assistant response text. -/
structure TurnData where
  usage : Option Usage
  agent_messages : List PyMessage
  assistant_response : String

/-- The estimator's figures for a turn without reported usage (app.py lines
656-665): input from the whole conversation, output from the response. -/
def estimated_usage (system_prompt : String) (t : TurnData) : Usage :=
  ⟨calculate_conversation_tokens t.agent_messages system_prompt,
   estimate_tokens_from_text t.assistant_response⟩

/-- The usage a turn is accounted with: exact if reported, else estimated. -/
def turnUsage (system_prompt : String) (t : TurnData) : Usage :=
  match t.usage with
  | some u => u
  | none => estimated_usage system_prompt t

/-- The ledger update of one buffered chat turn (app.py lines 628-690):
the exact branch (lines 629-652) when usage metrics were found, otherwise
the estimate branch (lines 653-690).  Both add the turn's tokens and cost
and increment the request count once. -/
def processTurn (system_prompt : String) (l : UsageLedger) (t : TurnData) :
    UsageLedger :=
  match t.usage with
  | some u =>
      let total_tokens := u.inputTokens + u.outputTokens
      let input_cost : ℚ := (u.inputTokens : ℚ) / 1000000 * 3
      let output_cost : ℚ := (u.outputTokens : ℚ) / 1000000 * 15
      let total_cost := input_cost + output_cost
      ⟨l.total_tokens + total_tokens, l.total_cost + total_cost,
       l.total_requests + 1⟩
  | none =>
      let est := estimated_usage system_prompt t
      let estimated_total_tokens := est.inputTokens + est.outputTokens
      let estimated_input_cost : ℚ := (est.inputTokens : ℚ) / 1000000 * 3
      let estimated_output_cost : ℚ := (est.outputTokens : ℚ) / 1000000 * 15
      let estimated_total_cost := estimated_input_cost + estimated_output_cost
      ⟨l.total_tokens + estimated_total_tokens,
       l.total_cost + estimated_total_cost, l.total_requests + 1⟩

/-- A sequence of completed buffered turns starting from the fresh
(or reset-to-zero) ledger. -/
def runTurns (system_prompt : String) (ts : List TurnData) : UsageLedger :=
  ts.foldl (processTurn system_prompt) ledger0

/-! ## Model configuration (app.py lines 302-311, app_streaming.py 258-271) -/

/-- The default Bedrock model id (config_file.py, app_streaming.py 259). -/
def DEFAULT_BEDROCK_MODEL : String := "us.anthropic.claude-3-7-sonnet-20250219-v1:0"

/-- app_streaming.py line 259: `os.getenv("BEDROCK_MODEL_ID", default)`. -/
def resolveModelId (env_override : Option String) : String :=
  env_override.getD DEFAULT_BEDROCK_MODEL

/-- The configuration the `BedrockModel` constructor is given
(app_streaming.py lines 262-271). -/
structure BedrockModelCfg where
  model_id : String
  max_tokens : Nat
deriving DecidableEq

/-- Model creation at startup (app_streaming.py lines 262-271): the
constructor takes whatever model id it is given; there is no rate-table
lookup and no validation of the id anywhere in the repository. -/
def createModel (model_id : String) : Except String BedrockModelCfg :=
  .ok ⟨model_id, 8192⟩

/-! ## Agent initialization (app.py lines 331-493, app_streaming.py 291-422) -/

/-- The summarizing conversation manager configuration (app.py 314-328). -/
structure SummarizingCfg where
  summary_ratio : ℚ
  preserve_recent_messages : Nat
deriving DecidableEq

/-- app.py lines 314-328 / app_streaming.py lines 274-288. -/
def finops_conversation_manager : SummarizingCfg := ⟨3 / 10, 15⟩

/-- The `Agent(...)` constructor arguments: model, system prompt, tool list
(tools are identified by name), conversation manager. -/
structure Agent where
  model : BedrockModelCfg
  system_prompt : String
  tools : List String
  conversation_manager : SummarizingCfg
deriving DecidableEq

/-- The outcomes the agent-initialization block of app.py depends on.
Each `Except` models a Python call that may raise:
`aws_client_create` is the `MCPClient(...)` construction for the AWS API
server (lines 368-379), `billing_start` is `billing_mcp_client.__enter__()`
plus `list_tools_sync()` (lines 388-399, yielding the billing tool names),
`aws_start` likewise for the AWS API server (lines 407-414).
`outer_exc` models an exception in the outer `try` before tool loading
(caught at line 484), `tool_load_exc` one in the inner tool-loading `try`
(caught at line 473). -/
structure InitInputs where
  enable_aws_api : Bool
  aws_client_create : Except String Unit
  billing_start : Except String (List String)
  aws_start : Except String (List String)
  outer_exc : Option String
  tool_load_exc : Option String

/-- The tool set accumulated by the startup block (app.py lines 384-424):
billing tools if the billing server started, extended by the AWS API tools
if that client exists and started; each failure only skips its own
provider. -/
def all_tools (inp : InitInputs) : List String :=
  let billing_tools : List String :=
    match inp.billing_start with
    | .ok ts => ts
    | .error _ => []
  let aws_api_mcp_client : Option Unit :=
    if inp.enable_aws_api then
      match inp.aws_client_create with
      | .ok _ => some ()
      | .error _ => none
    else none
  let aws_tools : List String :=
    match aws_api_mcp_client with
    | some _ =>
        match inp.aws_start with
        | .ok ts => ts
        | .error _ => []
    | none => []
  billing_tools ++ aws_tools

/-- The whole `if "agent" not in st.session_state` block of app.py
(lines 331-493): the session always ends up holding an agent; every
failure path falls back to an agent with an empty tool list and the same
model, system prompt and conversation manager. -/
def init_agent (model : BedrockModelCfg) (system_prompt : String)
    (inp : InitInputs) : Agent :=
  match inp.outer_exc with
  | some _ => ⟨model, system_prompt, [], finops_conversation_manager⟩
  | none =>
      let raw_mcp_tools := all_tools inp
      match inp.tool_load_exc with
      | some _ => ⟨model, system_prompt, [], finops_conversation_manager⟩
      | none =>
          if raw_mcp_tools.isEmpty then
            ⟨model, system_prompt, [], finops_conversation_manager⟩
          else
            ⟨model, system_prompt, raw_mcp_tools, finops_conversation_manager⟩

/-- The simpler startup outcomes of app_streaming.py (lines 291-422):
only the billing provider exists there. -/
structure StreamInitInputs where
  billing_start : Except String (List String)
  outer_exc : Option String
  tool_load_exc : Option String

/-- The agent-initialization block of app_streaming.py (lines 291-422). -/
def init_agent_streaming (model : BedrockModelCfg)
    (system_prompt : String) (inp : StreamInitInputs) : Agent :=
  match inp.outer_exc with
  | some _ => ⟨model, system_prompt, [], finops_conversation_manager⟩
  | none =>
      let raw_mcp_tools : List String :=
        match inp.billing_start with
        | .ok ts => ts
        | .error _ => []
      match inp.tool_load_exc with
      | some _ => ⟨model, system_prompt, [], finops_conversation_manager⟩
      | none =>
          if raw_mcp_tools.isEmpty then
            ⟨model, system_prompt, [], finops_conversation_manager⟩
          else
            ⟨model, system_prompt, raw_mcp_tools, finops_conversation_manager⟩

/-! ## MCP client cleanup (app.py lines 752-769, app_streaming.py 523-529) -/

/-- The log line produced by one guarded `__exit__` call: the `try` body
on success, the `except` handler's message when the underlying close
raises.  The argument is the outcome of the unprotected close. -/
def tryCloseLog (client_name : String) (close_result : Except String Unit) :
    String :=
  match close_result with
  | .ok _ => client_name ++ " MCP client session closed"
  | .error e => "Error closing " ++ client_name ++ " MCP client: " ++ e

/-- app.py `cleanup_mcp_clients`: each registered client's `__exit__` is
attempted inside its own `try`/`except`; an `Option` input is `none` when
that client was never stored in session state.  The `Except` result type
models exception propagation to the caller: an uncaught exception would be
`.error`, and the body catches every close failure. -/
def cleanup_mcp_clients
    (billing_mcp_client aws_api_mcp_client : Option (Except String Unit)) :
    Except String (List String) :=
  let billing_logs : List String :=
    match billing_mcp_client with
    | some c => [tryCloseLog "Billing" c]
    | none => []
  let aws_logs : List String :=
    match aws_api_mcp_client with
    | some c => [tryCloseLog "AWS API" c]
    | none => []
  .ok (billing_logs ++ aws_logs)

/-- app_streaming.py `cleanup_mcp_clients`: only the billing client. -/
def cleanup_mcp_clients_streaming
    (billing_mcp_client : Option (Except String Unit)) :
    Except String (List String) :=
  match billing_mcp_client with
  | some c => .ok [tryCloseLog "Billing" c]
  | none => .ok []

/-! ## Streaming callback handler (app_streaming.py lines 452-520) -/

/-- The `type` tag of an output-buffer entry. -/
inductive BlockKind
  | data
  | tool_use
  | reasoning
deriving DecidableEq

/-- One entry of `output_buffer`: a dict with `type` and `content`. -/
structure OutputBlock where
  kind : BlockKind
  content : String
deriving DecidableEq

/-- One invocation of the callback handler, by which payload key the
`kwargs` carry: a text delta (`data`), a tool-use notification
(`current_tool_use`, whose `name` may still be empty), a reasoning delta
(`reasoningText`), or anything else. -/
inductive CallbackEvent
  | data (s : String)
  | current_tool_use (tool_name : String) (input : String)
  | reasoningText (s : String)
  | otherEvent
deriving DecidableEq

/-- app_streaming.py `custom_callback_handler` (lines 473-496), acting on
`output_buffer`: a `data` delta is appended to the last entry when that
entry is also `data`, else starts a new entry; a named `current_tool_use`
always appends a new `tool_use` entry; a `reasoningText` delta coalesces
like `data`.  Anything else leaves the buffer unchanged. -/
def custom_callback_handler (output_buffer : List OutputBlock)
    (e : CallbackEvent) : List OutputBlock :=
  match e with
  | .data s =>
      match output_buffer.getLast? with
      | some last =>
          if last.kind = .data then
            output_buffer.dropLast ++ [⟨.data, last.content ++ s⟩]
          else
            output_buffer ++ [⟨.data, s⟩]
      | none => output_buffer ++ [⟨.data, s⟩]
  | .current_tool_use tool_name input =>
      if tool_name = "" then output_buffer
      else
        output_buffer ++
          [⟨.tool_use, "Using tool: " ++ tool_name ++ " with args: " ++ input⟩]
  | .reasoningText s =>
      match output_buffer.getLast? with
      | some last =>
          if last.kind = .reasoning then
            output_buffer.dropLast ++ [⟨.reasoning, last.content ++ s⟩]
          else
            output_buffer ++ [⟨.reasoning, s⟩]
      | none => output_buffer ++ [⟨.reasoning, s⟩]
  | .otherEvent => output_buffer

/-- The buffer produced by a whole stream of callback events, starting from
the fresh `output_buffer = []` of one chat turn (line 471). -/
def processEvents (events : List CallbackEvent) : List OutputBlock :=
  events.foldl custom_callback_handler []

/-- One entry of `st.session_state.messages` in the streaming app: a dict
with `role`, an optional `type`, and `content` (lines 454, 520). -/
structure ChatMessage where
  role : String
  msg_kind : Option BlockKind
  content : String
deriving DecidableEq

/-- The streaming app's session state touched by one chat turn.  The
`ledger` component stands for the `total_tokens` / `total_cost` /
`total_requests` keys; app_streaming.py contains no reference to them. -/
structure StreamSessionState where
  messages : List ChatMessage
  output : List OutputBlock
  ledger : Option UsageLedger

/-- The whole streaming chat-input handler (app_streaming.py lines
452-520) as a session-state transition: append the user message, run the
agent collecting callback events into `output_buffer`, copy the buffer to
`output`, and append one assistant message per buffer entry.  No statement
in the handler updates the usage ledger. -/
def streamingChatTurn (st : StreamSessionState) (prompt : String)
    (events : List CallbackEvent) : StreamSessionState :=
  let output_buffer := processEvents events
  { messages :=
      (st.messages ++ [⟨"user", none, prompt⟩]) ++
        output_buffer.map (fun b => ⟨"assistant", some b.kind, b.content⟩),
    output := output_buffer,
    ledger := st.ledger }

/-! ## Helper lemmas -/

theorem length_pos_of_ne_empty (s : String) (h : s ≠ "") : 0 < s.length := by
  rcases s with ⟨l⟩
  cases l with
  | nil => simp at h
  | cons a l => simp [String.length]

/-- Exact characterization of Python `L // 3.2` on positive integers below
2^50: it is `5L/16 - 1` when 16 divides L (the true quotient `L / 3.2` is
then the integer `5L/16`, but the double 3.2 is slightly above 3.2, pushing
the float quotient just below it), and `⌊5L/16⌋` otherwise. -/
theorem pyFloorDiv_characterization (L : Nat) (h1 : 0 < L)
    (h2 : L < 3602879701896397) :
    pyFloorDivByThreePointTwo L =
      if L % 16 = 0 then 5 * L / 16 - 1 else 5 * L / 16 := by
  by_cases h3 : L % 16 = 0
  · rw [if_pos h3]
    unfold pyFloorDivByThreePointTwo
    omega
  · rw [if_neg h3]
    unfold pyFloorDivByThreePointTwo
    have h5 : 16 * (5 * L / 16) + 5 * L % 16 = 5 * L := Nat.div_add_mod (5 * L) 16
    have hr1 : 1 ≤ 5 * L % 16 := by omega
    have hr15 : 5 * L % 16 ≤ 15 := by omega
    set q := 5 * L / 16 with hq
    set r := 5 * L % 16 with hr
    have key : (16 * q + r) * 3602879701896397
        = 16 * (L * 1125899906842624) + L := by
      rw [h5]; ring_nf
    have hqD : 16 * (q * 3602879701896397) + r * 3602879701896397
        = 16 * (L * 1125899906842624) + L := by
      ring_nf; ring_nf at key; omega
    have hBlo : 3602879701896397 ≤ r * 3602879701896397 :=
      Nat.le_mul_of_pos_left _ hr1
    have hBhi : r * 3602879701896397 ≤ 15 * 3602879701896397 :=
      Nat.mul_le_mul_right _ hr15
    have lo : q * 3602879701896397 ≤ L * 1125899906842624 := by omega
    have hi : L * 1125899906842624 < (q + 1) * 3602879701896397 := by
      have hx : (q + 1) * 3602879701896397
          = q * 3602879701896397 + 3602879701896397 := by ring
      omega
    omega

/-! ## C1: text token estimate uses floor division, not ceiling -/

/-- C1 counterexample: on the 4-character text "abcd" the code returns
`max(1, 4 // 3.2) = 1`, while the claimed `max(1, ceil(4 / 3.2)) = 2`. -/
theorem C1_counterexample :
    estimate_tokens_from_text "abcd" = 1 ∧ spec_estimate_tokens "abcd" = 2 ∧
      estimate_tokens_from_text "abcd" ≠ spec_estimate_tokens "abcd" := by
  decide

/-- C1 amended: for every non-empty text of length L (below 2^50) the
result is `max(1, L // 3.2)` under float floor-division — the floor, one
less than `⌊5L/16⌋` at exact multiples of 16 — not the ceiling; and for
structured content `calculate_conversation_tokens` sums the system-prompt
estimate and, per message, the role estimate plus the per-field estimates
of each serialized item. -/
theorem C1_floor_not_ceil :
    (∀ s : String, s ≠ "" → s.length < 3602879701896397 →
      estimate_tokens_from_text s =
        max 1 (if s.length % 16 = 0 then 5 * s.length / 16 - 1
               else 5 * s.length / 16)) ∧
    (∀ (agent_messages : List PyMessage) (system_prompt : String),
      calculate_conversation_tokens agent_messages system_prompt =
        estimate_tokens_from_text system_prompt +
          (agent_messages.map (fun m =>
            estimate_tokens_from_text m.role +
              match m.content with
              | .plain s => estimate_tokens_from_text s
              | .blocks items => (items.map contentItemTokens).sum)).sum) := by
  constructor
  · intro s hne hlt
    have hpos : 0 < s.length := length_pos_of_ne_empty s hne
    unfold estimate_tokens_from_text
    rw [if_neg hne, pyFloorDiv_characterization s.length hpos hlt]
  · intro msgs sp
    rfl

theorem C1_floor_not_ceil_witness :
    estimate_tokens_from_text "abcd" =
      max 1 (if ("abcd" : String).length % 16 = 0
             then 5 * ("abcd" : String).length / 16 - 1
             else 5 * ("abcd" : String).length / 16) :=
  C1_floor_not_ceil.1 "abcd" (by decide) (by decide)

/-! ## C8: estimator purity and bounds -/

/-- C8: `estimate_tokens_from_text` is a pure function of its input — equal
inputs give equal outputs — it returns 0 on the empty string and at least 1
on every non-empty string. -/
theorem C8_estimator_pure :
    estimate_tokens_from_text "" = 0 ∧
    (∀ s t : String, s = t →
      estimate_tokens_from_text s = estimate_tokens_from_text t) ∧
    (∀ s : String, s ≠ "" → 1 ≤ estimate_tokens_from_text s) := by
  refine ⟨rfl, fun s t h => by rw [h], fun s h => ?_⟩
  unfold estimate_tokens_from_text
  rw [if_neg h]
  exact Nat.le_max_left 1 _

theorem C8_estimator_pure_witness :
    estimate_tokens_from_text "ab" = estimate_tokens_from_text "ab" ∧
      1 ≤ estimate_tokens_from_text "xyz" :=
  ⟨C8_estimator_pure.2.1 "ab" "ab" rfl, C8_estimator_pure.2.2 "xyz" (by decide)⟩

/-! ## C4: per-request cost is linear at $3 / $15 per million tokens -/

/-- C4: the per-request cost is the linear form
`input_tokens/1e6 * 3 + output_tokens/1e6 * 15`, it is additive in token
counts, and the request-metrics display computes the same value whenever it
shows a cost. -/
theorem C4_cost_linear :
    (∀ input_tokens output_tokens : Nat,
      turn_cost input_tokens output_tokens =
        (input_tokens : ℚ) * 3 / 1000000 + (output_tokens : ℚ) * 15 / 1000000) ∧
    (∀ a b c d : Nat,
      turn_cost (a + b) (c + d) = turn_cost a c + turn_cost b d) ∧
    (∀ input_tokens output_tokens : Nat,
      0 < input_tokens ∨ 0 < output_tokens →
      request_metrics_cost input_tokens output_tokens =
        some (turn_cost input_tokens output_tokens)) := by
  refine ⟨fun it ot => by unfold turn_cost; ring,
          fun a b c d => by unfold turn_cost; push_cast; ring,
          fun it ot h => ?_⟩
  unfold request_metrics_cost turn_cost
  rw [if_pos h]

theorem C4_cost_linear_witness :
    request_metrics_cost 200 50 = some (turn_cost 200 50) :=
  C4_cost_linear.2.2 200 50 (Or.inl (by decide))

/-! ## C5: there is no rate table and no ConfigError -/

/-- C5 counterexample: overriding the model id with a string that has no
rate anywhere still resolves and is accepted by model creation at startup —
nothing rejects it — and the per-request cost is computed with the
hardcoded $3/$15 rates regardless ($3 for one million input tokens). -/
theorem C5_counterexample :
    resolveModelId (some "no-such-model") = "no-such-model" ∧
    (createModel (resolveModelId (some "no-such-model"))).isOk = true ∧
    turn_cost 1000000 0 = 3 := by
  refine ⟨rfl, rfl, ?_⟩
  unfold turn_cost
  norm_num

/-- C5 amended: the model id (default or environment override) is accepted
by startup without any rate-table validation — there is no ConfigError
path — and the cost rates are hardcoded constants $3.00 / $15.00 per
million tokens, applied for every configured model id. -/
theorem C5_no_config_error :
    (∀ env_override : Option String,
      createModel (resolveModelId env_override) =
        .ok ⟨resolveModelId env_override, 8192⟩) ∧
    (∀ input_tokens output_tokens : Nat,
      turn_cost input_tokens output_tokens =
        (input_tokens : ℚ) * 3 / 1000000 + (output_tokens : ℚ) * 15 / 1000000) := by
  exact ⟨fun env => rfl, fun it ot => by unfold turn_cost; ring⟩

/-! ## C2 / C3: ledger updates -/

/-- One buffered turn's ledger update, written through `turnUsage`. -/
theorem processTurn_eq (system_prompt : String) (l : UsageLedger)
    (t : TurnData) :
    processTurn system_prompt l t =
      ⟨l.total_tokens + ((turnUsage system_prompt t).inputTokens +
          (turnUsage system_prompt t).outputTokens),
       l.total_cost + turn_cost (turnUsage system_prompt t).inputTokens
          (turnUsage system_prompt t).outputTokens,
       l.total_requests + 1⟩ := by
  cases h : t.usage with
  | some u => simp [processTurn, turnUsage, turn_cost, h]
  | none => simp [processTurn, turnUsage, turn_cost, h]

/-- Folding turns over any starting ledger adds the per-turn sums. -/
theorem foldl_processTurn (system_prompt : String) (ts : List TurnData)
    (l : UsageLedger) :
    ts.foldl (processTurn system_prompt) l =
      ⟨l.total_tokens + (ts.map (fun t =>
          (turnUsage system_prompt t).inputTokens +
            (turnUsage system_prompt t).outputTokens)).sum,
       l.total_cost + (ts.map (fun t =>
          turn_cost (turnUsage system_prompt t).inputTokens
            (turnUsage system_prompt t).outputTokens)).sum,
       l.total_requests + ts.length⟩ := by
  induction ts generalizing l with
  | nil => simp
  | cons t ts ih =>
      rw [List.foldl_cons, ih, processTurn_eq]
      simp only [List.map_cons, List.sum_cons, List.length_cons,
        UsageLedger.mk.injEq]
      refine ⟨by omega, by ring, by omega⟩

/-- C2 counterexample: in the streaming variant a completed chat turn does
not increment the request counter (the handler never touches the ledger):
with the fresh zero ledger, a streamed turn leaves `total_requests` at 0,
not 1. -/
theorem C2_counterexample :
    ¬ (∀ (st : StreamSessionState) (prompt : String)
         (events : List CallbackEvent),
        ((streamingChatTurn st prompt events).ledger.getD ledger0).total_requests
          = (st.ledger.getD ledger0).total_requests + 1) := by
  intro h
  have hx := h ⟨[], [], some ledger0⟩ "hi" [.data "hello"]
  simp [streamingChatTurn, ledger0] at hx

/-- C2 amended: in the buffered variant every completed turn updates the
Usage Ledger exactly once — with the model's exact reported usage when
available, otherwise with the estimator's figures, never both — while the
streaming variant performs no ledger update at all. -/
theorem C2_ledger_update_once :
    (∀ (system_prompt : String) (l : UsageLedger) (t : TurnData),
      (processTurn system_prompt l t).total_requests = l.total_requests + 1 ∧
      (∀ u, t.usage = some u →
        processTurn system_prompt l t =
          ⟨l.total_tokens + (u.inputTokens + u.outputTokens),
           l.total_cost + turn_cost u.inputTokens u.outputTokens,
           l.total_requests + 1⟩) ∧
      (t.usage = none →
        processTurn system_prompt l t =
          ⟨l.total_tokens + ((estimated_usage system_prompt t).inputTokens +
              (estimated_usage system_prompt t).outputTokens),
           l.total_cost +
             turn_cost (estimated_usage system_prompt t).inputTokens
               (estimated_usage system_prompt t).outputTokens,
           l.total_requests + 1⟩)) ∧
    (∀ (st : StreamSessionState) (prompt : String)
       (events : List CallbackEvent),
      (streamingChatTurn st prompt events).ledger = st.ledger) := by
  refine ⟨fun system_prompt l t => ⟨?_, fun u hu => ?_, fun hn => ?_⟩,
          fun st prompt events => rfl⟩
  · rw [processTurn_eq]
  · simp [processTurn, hu, turn_cost]
  · simp [processTurn, hn, turn_cost]

theorem C2_ledger_update_once_witness :
    processTurn "sp" ledger0 ⟨some ⟨7, 5⟩, [], "r"⟩ =
      ⟨ledger0.total_tokens + (7 + 5), ledger0.total_cost + turn_cost 7 5,
       ledger0.total_requests + 1⟩ ∧
    processTurn "sp" ledger0 ⟨none, [], "r"⟩ =
      ⟨ledger0.total_tokens +
         ((estimated_usage "sp" ⟨none, [], "r"⟩).inputTokens +
           (estimated_usage "sp" ⟨none, [], "r"⟩).outputTokens),
       ledger0.total_cost +
         turn_cost (estimated_usage "sp" ⟨none, [], "r"⟩).inputTokens
           (estimated_usage "sp" ⟨none, [], "r"⟩).outputTokens,
       ledger0.total_requests + 1⟩ :=
  ⟨(C2_ledger_update_once.1 "sp" ledger0 ⟨some ⟨7, 5⟩, [], "r"⟩).2.1 ⟨7, 5⟩ rfl,
   (C2_ledger_update_once.1 "sp" ledger0 ⟨none, [], "r"⟩).2.2 rfl⟩

/-- C3: after any sequence of completed buffered turns since the last
reset, `total_tokens` is the sum of the per-turn input+output tokens,
`total_cost` the sum of the per-turn costs (exactly, in rational
arithmetic), and `total_requests` the number of turns — whether each turn
used exact reported usage or the estimator. -/
theorem C3_accounting_identity :
    ∀ (system_prompt : String) (ts : List TurnData),
      (runTurns system_prompt ts).total_tokens =
        (ts.map (fun t => (turnUsage system_prompt t).inputTokens +
            (turnUsage system_prompt t).outputTokens)).sum ∧
      (runTurns system_prompt ts).total_cost =
        (ts.map (fun t => turn_cost (turnUsage system_prompt t).inputTokens
            (turnUsage system_prompt t).outputTokens)).sum ∧
      (runTurns system_prompt ts).total_requests = ts.length := by
  intro system_prompt ts
  rw [runTurns, foldl_processTurn]
  simp [ledger0]

/-! ## C6: provider startup failures are isolated -/

/-- C6: if the billing provider fails to start, the AWS API provider's
tools still load and the agent is created with them (and symmetrically);
the tool set is non-empty whenever the surviving provider has tools. -/
theorem C6_provider_isolation :
    (∀ (model : BedrockModelCfg) (system_prompt err : String)
       (ts : List String), ts ≠ [] →
      init_agent model system_prompt
          ⟨true, .ok (), .error err, .ok ts, none, none⟩ =
        ⟨model, system_prompt, ts, finops_conversation_manager⟩) ∧
    (∀ (model : BedrockModelCfg) (system_prompt err : String)
       (ts : List String), ts ≠ [] →
      init_agent model system_prompt
          ⟨true, .ok (), .ok ts, .error err, none, none⟩ =
        ⟨model, system_prompt, ts, finops_conversation_manager⟩) := by
  constructor
  · intro model system_prompt err ts h
    simp [init_agent, all_tools, h]
  · intro model system_prompt err ts h
    simp [init_agent, all_tools, h]

theorem C6_provider_isolation_witness :
    init_agent ⟨DEFAULT_BEDROCK_MODEL, 64000⟩ "sp"
        ⟨true, .ok (), .error "billing down", .ok ["describe"], none, none⟩ =
      ⟨⟨DEFAULT_BEDROCK_MODEL, 64000⟩, "sp", ["describe"],
       finops_conversation_manager⟩ :=
  C6_provider_isolation.1 ⟨DEFAULT_BEDROCK_MODEL, 64000⟩ "sp" "billing down"
    ["describe"] (by decide)

/-! ## C9: cleanup never propagates close failures -/

/-- C9: closing the MCP clients at shutdown never raises: for every
combination of registered clients and underlying close outcomes the
cleanup returns normally, one log line per registered client — in
particular the AWS API close is still attempted after a billing close
failure — and likewise for the streaming variant. -/
theorem C9_cleanup_never_raises :
    (∀ billing aws : Option (Except String Unit),
      ∃ logs : List String, cleanup_mcp_clients billing aws = .ok logs ∧
        logs.length = (if billing.isSome then 1 else 0) +
          (if aws.isSome then 1 else 0)) ∧
    (∀ (e : String) (c : Except String Unit),
      cleanup_mcp_clients (some (.error e)) (some c) =
        .ok [tryCloseLog "Billing" (.error e), tryCloseLog "AWS API" c]) ∧
    (∀ billing : Option (Except String Unit),
      ∃ logs, cleanup_mcp_clients_streaming billing = .ok logs) := by
  refine ⟨fun billing aws => ?_, fun e c => rfl, fun billing => ?_⟩
  · cases billing <;> cases aws <;> exact ⟨_, rfl, rfl⟩
  · cases billing <;> exact ⟨_, rfl⟩

/-! ## C10: the session always holds a constructed agent -/

/-- C10: initialization always yields an agent with the configured model,
system prompt and conversation manager, and on every failure path (outer
exception, tool-loading exception, or no tools loaded) that agent is the
fallback with an empty tool list — in both app variants. -/
theorem C10_fallback_agent :
    (∀ (model : BedrockModelCfg) (system_prompt : String) (inp : InitInputs),
      (init_agent model system_prompt inp).model = model ∧
      (init_agent model system_prompt inp).system_prompt =
        system_prompt ∧
      (init_agent model system_prompt inp).conversation_manager =
        finops_conversation_manager ∧
      (inp.outer_exc.isSome = true ∨ inp.tool_load_exc.isSome = true ∨
          (all_tools inp).isEmpty = true →
        (init_agent model system_prompt inp).tools = [])) ∧
    (∀ (model : BedrockModelCfg) (system_prompt : String)
       (inp : StreamInitInputs),
      (init_agent_streaming model system_prompt inp).model = model ∧
      (init_agent_streaming model system_prompt inp).system_prompt =
        system_prompt ∧
      (init_agent_streaming model system_prompt inp).conversation_manager
        = finops_conversation_manager ∧
      (inp.outer_exc.isSome = true ∨ inp.tool_load_exc.isSome = true ∨
          (match inp.billing_start with
           | .ok ts => ts
           | .error _ => []).isEmpty = true →
        (init_agent_streaming model system_prompt inp).tools = [])) := by
  constructor
  · intro model system_prompt inp
    unfold init_agent
    cases h1 : inp.outer_exc with
    | some e => simp
    | none =>
        cases h2 : inp.tool_load_exc with
        | some e => simp
        | none =>
            by_cases h3 : (all_tools inp).isEmpty = true <;>
              simp [h1, h2, h3]
  · intro model system_prompt inp
    unfold init_agent_streaming
    cases h1 : inp.outer_exc with
    | some e => simp
    | none =>
        cases h2 : inp.tool_load_exc with
        | some e => simp
        | none =>
            by_cases h3 : (match inp.billing_start with
                | .ok ts => ts
                | .error _ => []).isEmpty = true <;>
              simp [h1, h2, h3]

theorem C10_fallback_agent_witness :
    (init_agent ⟨"m", 64000⟩ "sp"
        ⟨true, .ok (), .error "b", .error "a", none, none⟩).tools = [] ∧
    (init_agent_streaming ⟨"m", 8192⟩ "sp"
        ⟨.error "b", none, none⟩).tools = [] :=
  ⟨(C10_fallback_agent.1 ⟨"m", 64000⟩ "sp"
      ⟨true, .ok (), .error "b", .error "a", none, none⟩).2.2.2
      (Or.inr (Or.inr (by decide))),
   (C10_fallback_agent.2 ⟨"m", 8192⟩ "sp" ⟨.error "b", none, none⟩).2.2.2
      (Or.inr (Or.inr (by decide)))⟩

/-! ## C7: coalescing of streamed fragments -/

/-- Adjacency discipline between two consecutive buffer entries: never two
adjacent `data` entries, never two adjacent `reasoning` entries. -/
def coalescedStep (a b : OutputBlock) : Prop :=
  ¬ (a.kind = BlockKind.data ∧ b.kind = BlockKind.data) ∧
  ¬ (a.kind = BlockKind.reasoning ∧ b.kind = BlockKind.reasoning)

theorem coalescedStep_of_kind_ne (a b : OutputBlock) (h : a.kind ≠ b.kind) :
    coalescedStep a b :=
  ⟨fun hc => h (hc.1.trans hc.2.symm), fun hc => h (hc.1.trans hc.2.symm)⟩

theorem coalescedStep_congr_right (a b b' : OutputBlock)
    (h : b.kind = b'.kind) (hr : coalescedStep a b) : coalescedStep a b' := by
  unfold coalescedStep at hr ⊢
  rw [← h]
  exact hr

theorem chain'_append_one (l : List OutputBlock) (x : OutputBlock)
    (h : List.Chain' coalescedStep l)
    (hlast : ∀ y ∈ l.getLast?, coalescedStep y x) :
    List.Chain' coalescedStep (l ++ [x]) := by
  rw [List.chain'_append]
  refine ⟨h, List.chain'_singleton x, fun a ha b hb => ?_⟩
  have hb' : x = b := by simpa using hb
  subst hb'
  exact hlast a ha

/-- One callback invocation preserves the adjacency discipline. -/
theorem handler_preserves_coalesced (buf : List OutputBlock)
    (e : CallbackEvent) (h : List.Chain' coalescedStep buf) :
    List.Chain' coalescedStep (custom_callback_handler buf e) := by
  cases e with
  | data s =>
      simp only [custom_callback_handler]
      cases hl : buf.getLast? with
      | none =>
          have hbuf : buf = [] := List.getLast?_eq_none_iff.mp hl
          subst hbuf
          simp
      | some last =>
          dsimp only
          by_cases hk : last.kind = BlockKind.data
          · rw [if_pos hk]
            have hdec : buf.dropLast ++ [last] = buf :=
              List.dropLast_append_getLast? last hl
            rw [← hdec, List.chain'_append] at h
            obtain ⟨h1, -, h3⟩ := h
            refine chain'_append_one _ _ h1 (fun y hy => ?_)
            exact coalescedStep_congr_right y last _ hk
              (h3 y hy last (by simp))
          · rw [if_neg hk]
            refine chain'_append_one _ _ h (fun y hy => ?_)
            have hy' : last = y := by rw [hl] at hy; simpa using hy
            subst hy'
            exact coalescedStep_of_kind_ne _ _ (by simpa using hk)
  | current_tool_use tool_name input =>
      simp only [custom_callback_handler]
      by_cases hn : tool_name = ""
      · rw [if_pos hn]; exact h
      · rw [if_neg hn]
        refine chain'_append_one _ _ h (fun y hy => ?_)
        unfold coalescedStep
        exact ⟨fun hc => by simp at hc, fun hc => by simp at hc⟩
  | reasoningText s =>
      simp only [custom_callback_handler]
      cases hl : buf.getLast? with
      | none =>
          have hbuf : buf = [] := List.getLast?_eq_none_iff.mp hl
          subst hbuf
          simp
      | some last =>
          dsimp only
          by_cases hk : last.kind = BlockKind.reasoning
          · rw [if_pos hk]
            have hdec : buf.dropLast ++ [last] = buf :=
              List.dropLast_append_getLast? last hl
            rw [← hdec, List.chain'_append] at h
            obtain ⟨h1, -, h3⟩ := h
            refine chain'_append_one _ _ h1 (fun y hy => ?_)
            exact coalescedStep_congr_right y last _ hk
              (h3 y hy last (by simp))
          · rw [if_neg hk]
            refine chain'_append_one _ _ h (fun y hy => ?_)
            have hy' : last = y := by rw [hl] at hy; simpa using hy
            subst hy'
            exact coalescedStep_of_kind_ne _ _ (by simpa using hk)
  | otherEvent => exact h

/-- C7 counterexample: two consecutive tool-use fragments (the model
streaming the tool input in two callbacks) leave two adjacent `tool_use`
entries in the stored output buffer — tool-use fragments are not
coalesced. -/
theorem C7_counterexample :
    ((streamingChatTurn ⟨[], [], none⟩ "prompt"
        [CallbackEvent.current_tool_use "get_cost" "x",
         CallbackEvent.current_tool_use "get_cost" "y"]).output.map
      OutputBlock.kind) = [BlockKind.tool_use, BlockKind.tool_use] := by
  decide

/-- C7 amended: the session coalesces consecutive streamed text (`data`)
fragments and consecutive `reasoning` fragments, so the stored buffer
never holds two adjacent entries of either of those kinds; tool-use
fragments, however, each append their own entry.  The buffer built by the
callbacks is exactly what the turn stores as its output. -/
theorem C7_coalescing :
    (∀ events : List CallbackEvent,
      List.Chain' coalescedStep (processEvents events)) ∧
    (∀ (st : StreamSessionState) (prompt : String)
       (events : List CallbackEvent),
      (streamingChatTurn st prompt events).output = processEvents events) := by
  constructor
  · have aux : ∀ (evs : List CallbackEvent) (buf : List OutputBlock),
        List.Chain' coalescedStep buf →
        List.Chain' coalescedStep (evs.foldl custom_callback_handler buf) := by
      intro evs
      induction evs with
      | nil => intro buf hb; simpa using hb
      | cons e evs ih =>
          intro buf hb
          rw [List.foldl_cons]
          exact ih _ (handler_preserves_coalesced buf e hb)
    exact fun events => aux events [] (by simp)
  · intro st prompt events
    rfl

end FinOps
